import Mathlib

/-!
Verification of the EXtra-data streaming bridge (`extra_data/export.py`) and the
dataset-index utility (`extra_data/h5index.py`).

The development shallowly embeds the Python code: dictionaries become
association lists (preserving insertion order, as Python dicts do), numpy
arrays become a shape together with a flat payload, exceptions become
`Except` / explicit error fields.  Functions whose bodies live in modules of
the repository that are not part of the examined sources (`reader.py`,
`stacking.py`, `components.py`, and the external `karabo_bridge` transport)
are modelled from the specification; each such definition carries a doc
comment starting with `Modelled from the spec:`.
-/

namespace ExtraData

instance {ε α : Type} [DecidableEq ε] [DecidableEq α] : DecidableEq (Except ε α)
  | .error x, .error y =>
    if h : x = y then .isTrue (by rw [h])
    else .isFalse (by intro hc; cases hc; exact h rfl)
  | .error _, .ok _ => .isFalse (by intro hc; cases hc)
  | .ok _, .error _ => .isFalse (by intro hc; cases hc)
  | .ok x, .ok y =>
    if h : x = y then .isTrue (by rw [h])
    else .isFalse (by intro hc; cases hc; exact h rfl)

abbrev Key := String

abbrev SourceName := String

/-- A data value held under one key of a source: a scalar or an n-d array
(shape plus flat payload). -/
inductive Value where
  | scalar (n : Int)
  | arr (shape : List Nat) (data : List Int)
  deriving Repr, DecidableEq

/-- One source's record inside a train: its data keys (in insertion order,
as a Python dict) plus the reserved `metadata` entry, of which the code
touches `metadata['source']` (and possibly a timestamp). -/
structure SourceRecord where
  data : List (Key × Value)
  metaSource : String
  metaTimestamp : Option Int := none
  deriving Repr, DecidableEq

/-- One train: its train identifier and its source map, an insertion-ordered
mapping from source name to `SourceRecord` (a Python dict). -/
structure Frame where
  tid : Nat
  sources : List (SourceName × SourceRecord)
  deriving Repr, DecidableEq

/-! ### Python dict semantics on association lists -/

/-- `d[k]` as a total lookup: first binding of `k`, if any. -/
def assocGet (m : List (Key × α)) (k : Key) : Option α :=
  (m.find? (fun kv => kv.1 == k)).map (·.2)

/-- `d[k] = v`: replace in place if `k` is bound (keeping its position),
otherwise append at the end — Python dict assignment. -/
def assocSet (m : List (Key × α)) (k : Key) (v : α) : List (Key × α) :=
  if m.any (fun kv => kv.1 == k) then
    m.map (fun kv => if kv.1 == k then (k, v) else kv)
  else
    m ++ [(k, v)]

/-- `del d[k]`: `none` models the `KeyError` raised when `k` is unbound. -/
def assocDel (m : List (Key × α)) (k : Key) : Option (List (Key × α)) :=
  if m.any (fun kv => kv.1 == k) then
    some (m.filter (fun kv => kv.1 != k))
  else
    none

/-! ### Detector source names

`serve_files` uses a detector object built by `AGIPD1M` / `DSSC1M` / `LPD1M`
(from `extra_data.components`): what the loop reads from it is
`det.detector_name` and `det.data.detector_sources`. -/

structure DetectorData where
  detector_sources : List SourceName
  deriving Repr, DecidableEq

structure Detector where
  detector_name : String
  data : DetectorData
  deriving Repr, DecidableEq

/-- Digits of a string read as a number, most significant first. -/
def digitsToNat (cs : List Char) : Nat :=
  cs.foldl (fun acc c => 10 * acc + (c.toNat - '0'.toNat)) 0

/-- Split a character list at every occurrence of `sep` (Python's
`str.split('/')`). -/
def splitOnChar (sep : Char) : List Char → List (List Char)
  | [] => [[]]
  | c :: cs =>
    if c = sep then
      [] :: splitOnChar sep cs
    else
      match splitOnChar sep cs with
      | h :: t => (c :: h) :: t
      | [] => [[c]]

/-- Modelled from the spec: the detector naming convention of
`extra_data.components` (not under the examined sources).  A module source
name has the form `{detectorName}/DET/{channel}CH0:xtdf`, the last path
segment encoding the channel index as its leading digits. -/
def parseModuleName (src : SourceName) : Option (String × Nat) :=
  match splitOnChar '/' src.data with
  | [dn, det, seg] =>
    if det = "DET".data then
      let digits := seg.takeWhile Char.isDigit
      let rest := seg.dropWhile Char.isDigit
      if digits ≠ [] ∧ rest = "CH0:xtdf".data then
        some (String.mk dn, digitsToNat digits)
      else
        none
    else
      none
  | _ => none

/-- Channel index of a module source name (0 when the name does not parse;
matched sources always parse). -/
def channelOf (src : SourceName) : Nat :=
  ((parseModuleName src).map Prod.snd).getD 0

/-! ### Stacking -/

inductive StackError where
  | inconsistentModules
  | shapeError
  deriving Repr, DecidableEq

/-- Ordering of module entries by channel index, extracted from the source
name. -/
def chanLe (a b : SourceName × SourceRecord) : Prop :=
  channelOf a.1 ≤ channelOf b.1

instance : DecidableRel chanLe := fun a b => by
  unfold chanLe; infer_instance

/-- Modelled from the spec: `stack_detector_data` (from `extra_data.stacking`,
not under the examined sources) concatenates the per-module arrays at the
data key along a new leading module axis, ordered by increasing channel
index regardless of the source map's insertion order; it fails with
`ShapeError` when the per-module shapes are incompatible (also on an empty
module set, where numpy's stack raises) and with `InconsistentModulesError`
when a module lacks the key or holds a non-array there. -/
def stack_detector_data (det_data : List (SourceName × SourceRecord)) (key : Key) :
    Except StackError Value :=
  let sorted := det_data.insertionSort chanLe
  match sorted.mapM (fun kv => assocGet kv.2.data key) with
  | none => .error .inconsistentModules
  | some vals =>
    match vals with
    | [] => .error .shapeError
    | v0 :: _ =>
      match v0 with
      | .scalar _ => .error .inconsistentModules
      | .arr s0 _ =>
        let arrays := vals.mapM (fun v =>
          match v with
          | .arr s d => if s = s0 then some d else none
          | .scalar _ => none)
        match arrays with
        | none => .error .shapeError
        | some payloads => .ok (.arr (vals.length :: s0) payloads.flatten)

/-! ### The append-mode transform (`serve_files`, the body of the
`if det is not None:` block) -/

inductive PumpError where
  | stack (e : StackError)
  | keyError (src : SourceName)
  | stopIteration
  deriving Repr, DecidableEq

/-- The `for src in det.data.detector_sources: del train_data[src]` loop:
delete the listed sources one by one, raising `KeyError` on the first one
absent from the map. -/
def delSources (m : List (SourceName × SourceRecord)) :
    List SourceName → Except PumpError (List (SourceName × SourceRecord))
  | [] => .ok m
  | src :: rest =>
    match assocDel m src with
    | some m2 => delSources m2 rest
    | none => .error (.keyError src)

/-- The append-mode body of `serve_files`:

* `source_name = f'{det.detector_name}/DET/APPEND'`
* `det_data = {k: v for k, v in train_data.items() if k in det.data.detector_sources}`
* `stacked = stack_detector_data(det_data, 'image.data')`
* `train_data[source_name] = mod_data = next(iter(det_data.values()))`
  (the first entry in insertion order; `StopIteration` if there is none)
* `mod_data['image.data'] = stacked; mod_data['metadata']['source'] = source_name`
* `for src in det.data.detector_sources: del train_data[src]`
  (a `KeyError` if a listed source is absent from this train). -/
def applyAppend (det : Detector) (train_data : List (SourceName × SourceRecord)) :
    Except PumpError (List (SourceName × SourceRecord)) :=
  let source_name := det.detector_name ++ "/DET/APPEND"
  let det_data := train_data.filter (fun kv => det.data.detector_sources.contains kv.1)
  match stack_detector_data det_data "image.data" with
  | .error e => .error (.stack e)
  | .ok stacked =>
    match det_data with
    | [] => .error .stopIteration
    | (_, mod0) :: _ =>
      let mod_data : SourceRecord :=
        { mod0 with
          data := assocSet mod0.data "image.data" stacked
          metaSource := source_name }
      let td := assocSet train_data source_name mod_data
      delSources td det.data.detector_sources

/-- One frame through the optional append-mode transform (`det is None`
means pass-through). -/
def transformFrame (det : Option Detector) (f : Frame) : Except PumpError Frame :=
  match det with
  | none => .ok f
  | some d =>
    match applyAppend d f.sources with
    | .error e => .error e
    | .ok s => .ok { f with sources := s }

/-! ### Detection (`serve_files` lines 76–84) -/

/-- Whether `needle` occurs as a contiguous segment of `hay`. -/
def containsSub (needle : List Char) : List Char → Bool
  | [] => needle.isEmpty
  | c :: t => needle.isPrefixOf (c :: t) || containsSub needle t

/-- Modelled from the spec: one detector constructor of
`extra_data.components` (not under the examined sources) succeeds when every
source name matches its convention — same detector name, containing the
detector-family token, channels forming a complete module group `0..k-1` —
and raises `SourceNameError` otherwise (here: `none`). -/
def tryDetector (tok : String) (ns : List SourceName) : Option Detector :=
  match ns.mapM parseModuleName with
  | none => none
  | some parsed =>
    match parsed with
    | [] => none
    | (dn, _) :: _ =>
      if (parsed.all (fun p => p.1 == dn))
          && containsSub tok.data dn.data
          && ((List.range parsed.length).all
                (fun i => (parsed.map Prod.snd).contains i)) then
        some ⟨dn, ⟨ns⟩⟩
      else
        none

/-- The fixed priority order of detector families tried by `serve_files`
(line 78: `for detector in [AGIPD1M, DSSC1M, LPD1M]`). -/
def detectorFamilies : List String := ["AGIPD", "DSSC", "LPD"]

/-- The detection loop of `serve_files`: try each family in order, catching
`SourceNameError` and continuing; break on the first success; `det` stays
`None` when every constructor fails. -/
def detectDet (ns : List SourceName) : Option Detector :=
  detectorFamilies.findSome? (fun tok => tryDetector tok ns)

/-! ### The streaming loop (`serve_files` lines 88–113) -/

/-- Outcome of one `serve_files` run past startup: the frames fed to the
transport, whether `streamer.stop()` was reached, whether a
`KeyboardInterrupt` fired while blocked in `feed`, and the stacking/lookup
exception, if one escaped the loop. -/
structure RunResult where
  fed : List Frame
  stopCalled : Bool
  interrupted : Bool
  pumpError : Option PumpError
  deriving Repr, DecidableEq

/-- The `for tid, train_data in data.trains():` loop.  Empty frames are
skipped (`if not train_data: continue`); append mode transforms the frame
(any exception propagates — there is no handler in the loop, so the run
aborts and `streamer.stop()` on line 113 is never reached); an external
interrupt is modelled as striking during the `feed` of the
`interruptAt`-th fed frame, likewise skipping `stop()`.  Only when the
iteration finishes normally does control reach `streamer.stop()`. -/
def serveLoop (det : Option Detector) (interruptAt : Option Nat) :
    List Frame → Nat → RunResult
  | [], _ => ⟨[], true, false, none⟩
  | f :: rest, fedCount =>
    if f.sources.isEmpty then
      serveLoop det interruptAt rest fedCount
    else
      match transformFrame det f with
      | .error e => ⟨[], false, false, some e⟩
      | .ok f2 =>
        if interruptAt = some fedCount then
          ⟨[], false, true, none⟩
        else
          let r := serveLoop det interruptAt rest (fedCount + 1)
          ⟨f2 :: r.fed, r.stopCalled, r.interrupted, r.pumpError⟩

/-! ### Startup (`serve_files` lines 69–74) -/

/-- The observable facts about the `path` argument that the startup code
branches on. -/
structure PathInfo where
  pexists : Bool
  isDir : Bool
  validH5 : Bool
  validRunDir : Bool
  deriving Repr, DecidableEq

inductive StartupError where
  | notFoundError
  | formatError
  deriving Repr, DecidableEq

/-- `os.path.isdir`: true only for an existing directory. -/
def osp_isdir (p : PathInfo) : Bool :=
  p.pexists && p.isDir

/-- Modelled from the spec: `H5File` (from `extra_data.reader`, not under
the examined sources) fails with `NotFoundError` if the path does not exist
and with `FormatError` if it is not a recognizable single file. -/
def H5File (p : PathInfo) : Except StartupError Unit :=
  if !p.pexists then .error .notFoundError
  else if !p.validH5 then .error .formatError
  else .ok ()

/-- Modelled from the spec: `RunDirectory` (from `extra_data.reader`, not
under the examined sources) fails with `NotFoundError` if the path does not
exist and with `FormatError` if it is not a directory of recognizable
files. -/
def RunDirectory (p : PathInfo) : Except StartupError Unit :=
  if !p.pexists then .error .notFoundError
  else if !p.validRunDir then .error .formatError
  else .ok ()

/-- `serve_files` lines 69–72: `RunDirectory(path) if osp.isdir(path) else
H5File(path)`. -/
def openPath (p : PathInfo) : Except StartupError Unit :=
  if osp_isdir p then RunDirectory p else H5File p

/-- Whole-run outcome of `serve_files`: the startup error (if opening the
path failed, before the streamer even starts), whether the streamer was
started, and the streaming loop's outcome. -/
structure ServeResult where
  startup : Option StartupError
  started : Bool
  fed : List Frame
  stopCalled : Bool
  interrupted : Bool
  pumpError : Option PumpError
  deriving Repr, DecidableEq

/-- `serve_files`, end to end: open the path (startup errors abort before
anything is streamed), detect a detector when `append_detector_modules` is
set, start the streamer, run the loop, and reach `streamer.stop()` only on
its normal completion.  `frames` is the run's train sequence after
selection and `sourceNames` the selection's source names (both produced by
the excluded reader). -/
def serve_files (p : PathInfo) (frames : List Frame)
    (append_detector_modules : Bool) (sourceNames : List SourceName)
    (interruptAt : Option Nat) : ServeResult :=
  match openPath p with
  | .error e => ⟨some e, false, [], false, false, none⟩
  | .ok _ =>
    let det := if append_detector_modules then detectDet sourceNames else none
    let r := serveLoop det interruptAt frames 0
    ⟨none, true, r.fed, r.stopCalled, r.interrupted, r.pumpError⟩

/-! ### The transport queue (`karabo_bridge.ServerInThread`) -/

/-- The default `maxlen` of the deprecated `ZMQStreamer` wrapper
(`export.py` line 30). -/
def ZMQStreamer_default_maxlen : Nat := 10

/-- Modelled from the spec: the transport server's bounded FIFO queue (the
external `karabo_bridge` library).  `buf` holds queued frames, `maxlen` is
the capacity, `closed` is set by `stop()`. -/
structure QueueState where
  buf : List Frame
  maxlen : Nat
  closed : Bool
  deriving Repr, DecidableEq

/-- What one `feed` call does from the producer's point of view. -/
inductive FeedOutcome where
  | queued
  | blocked
  | returnedClosed
  deriving Repr, DecidableEq

/-- Modelled from the spec: `feed(frame)` enqueues and returns normally
while a slot is free, parks the producer (blocks) when the queue is full,
and returns without raising once `stop()` has closed the queue. -/
def feed (q : QueueState) (f : Frame) : FeedOutcome × QueueState :=
  if q.closed then (.returnedClosed, q)
  else if q.buf.length < q.maxlen then (.queued, { q with buf := q.buf ++ [f] })
  else (.blocked, q)

/-- Modelled from the spec: the consumer draining one frame frees a slot. -/
def drainOne (q : QueueState) : QueueState :=
  { q with buf := q.buf.tail }

/-- Modelled from the spec: `stop()` closes the queue, unblocking any
parked `feed`. -/
def stopQueue (q : QueueState) : QueueState :=
  { q with closed := true }

/-- A producer issuing a sequence of `feed` calls with no drains in
between. -/
def feedMany (q : QueueState) : List Frame → List FeedOutcome × QueueState
  | [] => ([], q)
  | f :: fs =>
    let r := feed q f
    let rr := feedMany r.2 fs
    (r.1 :: rr.1, rr.2)

/-! ### FrameSource and the pump-owned copy (for the mutation claims) -/

/-- Modelled from the spec: `data.trains()` (from `extra_data.reader`, not
under the examined sources) yields each frame's dicts built fresh per
iteration step, so the pump mutates only its own per-iteration copy.  The
copy is structural. -/
def copyRecord (r : SourceRecord) : SourceRecord :=
  ⟨r.data.map (fun kv => (kv.1, kv.2)), r.metaSource, r.metaTimestamp⟩

/-- The per-iteration copy of a frame handed out by `trains()`. -/
def copyFrame (f : Frame) : Frame :=
  ⟨f.tid, f.sources.map (fun kv => (kv.1, copyRecord kv.2))⟩

/-- The reader-side store backing `data.trains()`. -/
structure FrameSource where
  cache : List Frame
  deriving Repr, DecidableEq

/-- The streaming loop run against a `FrameSource`, threading the source's
store explicitly: each step works on `copyFrame` of the cached frame, and
the store is carried through to the end. -/
def serveFromSourceAux (det : Option Detector) (fs : FrameSource) :
    List Frame → (List Frame × Option PumpError) × FrameSource
  | [] => (([], none), fs)
  | f :: rest =>
    let fc := copyFrame f
    if fc.sources.isEmpty then
      serveFromSourceAux det fs rest
    else
      match transformFrame det fc with
      | .error e => (([], some e), fs)
      | .ok f2 =>
        let r := serveFromSourceAux det fs rest
        ((f2 :: r.1.1, r.1.2), r.2)

/-- Stream all frames of a `FrameSource`, returning the fed frames, the
escaping exception (if any) and the final state of the source. -/
def serveFromSource (fs : FrameSource) (det : Option Detector) :
    (List Frame × Option PumpError) × FrameSource :=
  serveFromSourceAux det fs fs.cache

/-! ### `h5index.hdf5_datasets` -/

/-- An HDF5 object reached by `Group.visititems`: a dataset (with its shape
and `dtype.str`) or a sub-group. -/
inductive H5Item where
  | dataset (shape : List Nat) (dtypeStr : String)
  | group
  deriving Repr, DecidableEq

/-- One visit made by `visititems`: the path of the object and the object
itself, in encounter order. -/
structure H5Visit where
  path : String
  item : H5Item
  deriving Repr, DecidableEq

/-- One collected row `[path, item.shape, item.dtype.str]`. -/
structure DsetRow where
  path : String
  shape : List Nat
  dtypeStr : String
  deriving Repr, DecidableEq

/-- Python's comparison of the row lists `[path, shape, dtype]`:
lexicographic, path first, then the shape tuple, then the dtype string. -/
def rowKey (r : DsetRow) : String ×ₗ (List Nat ×ₗ String) :=
  toLex (r.path, toLex (r.shape, r.dtypeStr))

/-- The order `sorted` uses on collected rows. -/
def rowLe (a b : DsetRow) : Prop :=
  rowKey a ≤ rowKey b

instance : DecidableRel rowLe := fun a b => by
  unfold rowLe; infer_instance

/-- The `visitor` closure: keep only visits of datasets, as rows, in
encounter order. -/
def visitDatasets (visits : List H5Visit) : List DsetRow :=
  visits.filterMap (fun v =>
    match v.item with
    | .dataset sh dt => some ⟨v.path, sh, dt⟩
    | .group => none)

/-- The CSV written to stdout: the header row, then the dataset rows. -/
structure CSVOutput where
  header : List String
  rows : List DsetRow
  deriving Repr, DecidableEq

/-- `hdf5_datasets(grp)`: collect `[path, shape, dtype.str]` for every
dataset the visitor encounters, then emit the header row
`['path', 'shape', 'dtype']` followed by `sorted(all_datasets)`. -/
def hdf5_datasets (visits : List H5Visit) : CSVOutput :=
  ⟨["path", "shape", "dtype"], (visitDatasets visits).insertionSort rowLe⟩

instance : IsTotal DsetRow rowLe :=
  ⟨fun a b => le_total (rowKey a) (rowKey b)⟩

instance : IsTrans DsetRow rowLe :=
  ⟨fun _ _ _ hab hbc => le_trans hab hbc⟩

instance : IsAntisymm DsetRow rowLe := by
  refine ⟨fun a b hab hba => ?_⟩
  have h : rowKey a = rowKey b := le_antisymm hab hba
  unfold rowKey at h
  have h1 := toLex.injective h
  rw [Prod.ext_iff] at h1
  have h2 := toLex.injective h1.2
  rw [Prod.ext_iff] at h2
  cases a
  cases b
  simp only at h1 h2
  simp [h1.1, h2.1, h2.2]

/-- Two encounter orders of the same group contents. -/
def visitsA : List H5Visit :=
  [⟨"b/z", .dataset [2, 2] "<f8"⟩, ⟨"a", .group⟩,
   ⟨"a/y", .dataset [3] "<u2"⟩, ⟨"a/x", .dataset [1] "<i4"⟩]

def visitsB : List H5Visit :=
  [⟨"a/x", .dataset [1] "<i4"⟩, ⟨"a/y", .dataset [3] "<u2"⟩,
   ⟨"b/z", .dataset [2, 2] "<f8"⟩, ⟨"a", .group⟩]

/-! ### Concrete test data -/

/-- A path that opens fine as a single file. -/
def goodPath : PathInfo := ⟨true, false, true, false⟩

/-- A path that does not exist. -/
def missingPath : PathInfo := ⟨false, false, false, false⟩

/-- A plain (non-detector) source record. -/
def srcA : SourceRecord := ⟨[("k", .scalar 1)], "a", none⟩

def fr100 : Frame := ⟨100, [("a", srcA)]⟩

def fr101 : Frame := ⟨101, []⟩

def fr102 : Frame := ⟨102, [("a", srcA)]⟩

/-- The three-train run of the end-to-end scenario: train 101 is empty
after filtering. -/
def run3 : List Frame := [fr100, fr101, fr102]

/-- The two module source names of the end-to-end stacking scenario. -/
def mch0 : SourceName := "DET/DET/0CH0:xtdf"

def mch1 : SourceName := "DET/DET/1CH0:xtdf"

def mrec0 : SourceRecord := ⟨[("image.data", .arr [64, 64] [0, 0, 0])], mch0, none⟩

def mrec1 : SourceRecord := ⟨[("image.data", .arr [64, 64] [1, 1, 1])], mch1, none⟩

/-- The detector of the stacking scenario. -/
def mDet : Detector := ⟨"DET", ⟨[mch0, mch1]⟩⟩

/-- Scenario records carrying an extra non-data key on which the two
modules disagree. -/
def crec0 : SourceRecord :=
  ⟨[("image.data", .arr [64, 64] [0]), ("other", .scalar 10)], mch0, none⟩

def crec1 : SourceRecord :=
  ⟨[("image.data", .arr [64, 64] [1]), ("other", .scalar 11)], mch1, none⟩

/-- AGIPD-style source names, recognized by detection. -/
def an0 : SourceName := "SPB_DET_AGIPD1M-1/DET/0CH0:xtdf"

def an1 : SourceName := "SPB_DET_AGIPD1M-1/DET/1CH0:xtdf"

def agipdNs : List SourceName := [an0, an1]

def arec0 : SourceRecord := ⟨[("image.data", .arr [64, 64] [0, 0])], an0, none⟩

def arec1 : SourceRecord := ⟨[("image.data", .arr [64, 64] [1, 1])], an1, none⟩

/-- A frame whose two AGIPD modules have incompatible shapes, so stacking
fails. -/
def frBad : Frame :=
  ⟨200, [(an0, arec0), (an1, ⟨[("image.data", .arr [32, 32] [9])], an1, none⟩)]⟩

/-- A well-formed AGIPD frame following the bad one. -/
def frGood : Frame := ⟨201, [(an0, arec0), (an1, arec1)]⟩

/-- A frame source whose cache holds one well-formed AGIPD frame. -/
def fsA : FrameSource := ⟨[frGood]⟩

/-- The detector detection computes for `agipdNs`. -/
def aDet : Detector := ⟨"SPB_DET_AGIPD1M-1", ⟨agipdNs⟩⟩

end ExtraData

namespace ExtraData

/-! ## Theorems -/

theorem transformFrame_tid {det : Option Detector} {f f2 : Frame}
    (h : transformFrame det f = .ok f2) : f2.tid = f.tid := by
  cases det with
  | none => simp [transformFrame] at h; simp [← h]
  | some d =>
    simp only [transformFrame] at h
    cases happ : applyAppend d f.sources with
    | error e => rw [happ] at h; cases h
    | ok s => rw [happ] at h; cases h; rfl

theorem serveLoop_fed_tids (det : Option Detector) :
    ∀ (frames : List Frame) (c : Nat),
      (serveLoop det none frames c).pumpError = none →
      (serveLoop det none frames c).fed.map Frame.tid
        = (frames.filter (fun f => !f.sources.isEmpty)).map Frame.tid := by
  intro frames
  induction frames with
  | nil => intro c _; simp [serveLoop]
  | cons f rest ih =>
    intro c h
    by_cases he : f.sources.isEmpty
    · simp only [serveLoop, he, if_pos] at h ⊢
      rw [List.filter_cons_of_neg (by simp [he])]
      exact ih c h
    · rw [List.filter_cons_of_pos (by simp [he])]
      have he2 : f.sources.isEmpty = false := by simpa using he
      simp only [serveLoop, he2, Bool.false_eq_true, if_false] at h ⊢
      cases htr : transformFrame det f with
      | error e =>
        rw [htr] at h
        simp at h
      | ok f2 =>
        rw [htr] at h
        simp only [] at h ⊢
        simp only [show ((none : Option Nat) = some c) = False by simp,
          if_false] at h ⊢
        simp only [List.map_cons, transformFrame_tid htr]
        rw [ih (c + 1) h]

/-- C1: on a run that `serve_files` streams to completion (startup
succeeded and no stacking exception escaped), the frames fed to the
transport are exactly the frames whose source map is non-empty after
filtering — empty frames are skipped, never published — and, the reader
yielding trains in strictly increasing order, the fed train identifiers
are strictly increasing. -/
theorem C1_serve_files_feeds_nonempty_frames_in_order
    (p : PathInfo) (frames : List Frame) (app : Bool) (ns : List SourceName)
    (hok : (serve_files p frames app ns none).startup = none)
    (hpe : (serve_files p frames app ns none).pumpError = none)
    (hinc : List.Pairwise (fun a b => a.tid < b.tid) frames) :
    (serve_files p frames app ns none).fed.map Frame.tid
        = (frames.filter (fun f => !f.sources.isEmpty)).map Frame.tid
      ∧ List.Pairwise (· < ·)
          ((serve_files p frames app ns none).fed.map Frame.tid) := by
  cases hop : openPath p with
  | error e =>
    simp [serve_files, hop] at hok
  | ok u =>
    simp only [serve_files, hop] at hpe ⊢
    have hmap := serveLoop_fed_tids
      (if app then detectDet ns else none) frames 0 hpe
    refine ⟨hmap, ?_⟩
    rw [hmap, List.pairwise_map]
    exact hinc.sublist (List.filter_sublist frames)

theorem C1_serve_files_feeds_nonempty_frames_in_order_witness :
    (serve_files goodPath run3 false [] none).fed.map Frame.tid
        = (run3.filter (fun f => !f.sources.isEmpty)).map Frame.tid
      ∧ List.Pairwise (· < ·)
          ((serve_files goodPath run3 false [] none).fed.map Frame.tid) :=
  C1_serve_files_feeds_nonempty_frames_in_order goodPath run3 false []
    (by decide) (by decide) (by decide)

/-- C2, counterexample: on a run whose first frame fails stacking (module
shapes `(64,64)` vs `(32,32)`), the exception is not caught — `serve_files`
aborts with the `ShapeError` escaping, the failing frame is not passed
through, the following well-formed frame is never fed, and `stop()` is
never reached.  This refutes the claim that per-frame stacking errors are
caught at the pump level with the frame passed through and the stream
continuing. -/
theorem C2_counterexample_stacking_error_escapes :
    (serve_files goodPath [frBad, frGood] true agipdNs none).pumpError
        = some (.stack .shapeError)
      ∧ (serve_files goodPath [frBad, frGood] true agipdNs none).fed = []
      ∧ (serve_files goodPath [frBad, frGood] true agipdNs none).stopCalled
        = false := by
  decide

/-- C2, amended: a per-frame stacking error is not caught anywhere in
`serve_files` — when the transform of a non-empty frame raises, the
exception propagates out of the loop at once: the failing frame is not fed,
no subsequent frame is fed, no interrupt was involved, and
`streamer.stop()` is never reached. -/
theorem C2_amended_stacking_error_aborts_stream
    (det : Option Detector) (intr : Option Nat) (c : Nat)
    (f : Frame) (rest : List Frame) (e : PumpError)
    (hne : f.sources.isEmpty = false)
    (htr : transformFrame det f = .error e) :
    serveLoop det intr (f :: rest) c = ⟨[], false, false, some e⟩ := by
  simp [serveLoop, hne, htr]

theorem C2_amended_stacking_error_aborts_stream_witness :
    serveLoop (detectDet agipdNs) none [frBad, frGood] 0
      = ⟨[], false, false, some (.stack .shapeError)⟩ :=
  C2_amended_stacking_error_aborts_stream (detectDet agipdNs) none 0
    frBad [frGood] (.stack .shapeError) (by decide) (by decide)

/-- C3: in the two-module `(64,64)` scenario — sources
`DET/DET/0CH0:xtdf` and `DET/DET/1CH0:xtdf`, here deliberately inserted in
the order channel 1 then channel 0 — the append transform produces a frame
with exactly one source, the synthetic name `DET/DET/APPEND` (the channel
segment replaced by the literal tag), whose `image.data` is the stacked
array of shape `(2,64,64)` with a new leading module axis ordered by
increasing channel index: module 0's payload comes first even though
module 1 was inserted first, and `metadata.source` carries the synthetic
name. -/
theorem C3_append_stacks_by_channel :
    applyAppend mDet [(mch1, mrec1), (mch0, mrec0)]
      = .ok [("DET/DET/APPEND",
          ⟨[("image.data", .arr [2, 64, 64] [0, 0, 0, 1, 1, 1])],
           "DET/DET/APPEND", none⟩)] := by
  decide

/-- C4: assembly never touches the reader's cache.  First conjunct: for
every frame source and detector configuration, streaming leaves the
`FrameSource` state exactly as it was — the destructive source-map rewrite
happens on the per-iteration copy handed out by `trains()` (modelled from
the spec: the reader builds each train's dicts fresh), never on the cached
data.  The remaining conjuncts exhibit the destructiveness on a concrete
run: the fed frame has the per-module sources removed and replaced by the
synthetic one, while the cache still holds the untouched original
frame. -/
theorem C4_cache_unchanged_by_assembly :
    (∀ (fs : FrameSource) (det : Option Detector),
        (serveFromSource fs det).2 = fs)
      ∧ (serveFromSource fsA (some aDet)).1.1
          = [⟨201, [("SPB_DET_AGIPD1M-1/DET/APPEND",
              ⟨[("image.data", .arr [2, 64, 64] [0, 0, 1, 1])],
               "SPB_DET_AGIPD1M-1/DET/APPEND", none⟩)]⟩]
      ∧ (serveFromSource fsA (some aDet)).2.cache
          = [⟨201, [(an0, arec0), (an1, arec1)]⟩] := by
  refine ⟨?_, by decide, by decide⟩
  intro fs det
  show (serveFromSourceAux det fs fs.cache).2 = fs
  generalize fs.cache = l
  induction l with
  | nil => rfl
  | cons f rest ih =>
    by_cases he : (copyFrame f).sources.isEmpty
    · simpa [serveFromSourceAux, he] using ih
    · have he2 : (copyFrame f).sources.isEmpty = false := by simpa using he
      cases htr : transformFrame det (copyFrame f) with
      | error e => simp [serveFromSourceAux, he2, htr]
      | ok f2 => simpa [serveFromSourceAux, he2, htr] using ih

theorem serveLoop_passthrough (frames : List Frame) :
    ∀ c : Nat, serveLoop none none frames c
      = ⟨frames.filter (fun f => !f.sources.isEmpty), true, false, none⟩ := by
  induction frames with
  | nil => intro c; simp [serveLoop]
  | cons f rest ih =>
    intro c
    by_cases he : f.sources.isEmpty
    · rw [List.filter_cons_of_neg (by simp [he])]
      simpa [serveLoop, he] using ih c
    · have he2 : f.sources.isEmpty = false := by simpa using he
      rw [List.filter_cons_of_pos (by simp [he])]
      simp [serveLoop, he2, transformFrame, ih (c + 1)]

/-- C5: detection tries the supported conventions in the fixed priority
order AGIPD, DSSC, LPD; the first constructor that succeeds wins (the
`SourceNameError` of an earlier one is swallowed and the next is tried);
when none matches the result is `None` rather than an error, and the
streaming loop then forwards every non-empty frame to the transport
unmodified, runs to completion (reaching `stop()`), and lets no exception
escape. -/
theorem C5_detection_priority_and_passthrough :
    (∀ (ns : List SourceName) (d : Detector),
        tryDetector "AGIPD" ns = some d → detectDet ns = some d)
      ∧ (∀ (ns : List SourceName) (d : Detector),
          tryDetector "AGIPD" ns = none → tryDetector "DSSC" ns = some d →
          detectDet ns = some d)
      ∧ (∀ (ns : List SourceName) (d : Detector),
          tryDetector "AGIPD" ns = none → tryDetector "DSSC" ns = none →
          tryDetector "LPD" ns = some d → detectDet ns = some d)
      ∧ (∀ ns : List SourceName,
          tryDetector "AGIPD" ns = none → tryDetector "DSSC" ns = none →
          tryDetector "LPD" ns = none → detectDet ns = none)
      ∧ (∀ (ns : List SourceName) (frames : List Frame) (c : Nat),
          detectDet ns = none →
          serveLoop (detectDet ns) none frames c
            = ⟨frames.filter (fun f => !f.sources.isEmpty), true, false, none⟩) := by
  refine ⟨?_, ?_, ?_, ?_, ?_⟩
  · intro ns d h
    simp [detectDet, detectorFamilies, List.findSome?, h]
  · intro ns d h1 h2
    simp [detectDet, detectorFamilies, List.findSome?, h1, h2]
  · intro ns d h1 h2 h3
    simp [detectDet, detectorFamilies, List.findSome?, h1, h2, h3]
  · intro ns h1 h2 h3
    simp [detectDet, detectorFamilies, List.findSome?, h1, h2, h3]
  · intro ns frames c h
    rw [h]
    exact serveLoop_passthrough frames c

theorem C5_detection_priority_and_passthrough_witness :
    detectDet ["MOTOR/X"] = none
      ∧ serveLoop (detectDet ["MOTOR/X"]) none run3 0
          = ⟨run3.filter (fun f => !f.sources.isEmpty), true, false, none⟩ := by
  refine ⟨?_, ?_⟩
  · exact (C5_detection_priority_and_passthrough.2.2.2.1) ["MOTOR/X"]
      (by decide) (by decide) (by decide)
  · exact (C5_detection_priority_and_passthrough.2.2.2.2) ["MOTOR/X"] run3 0
      ((C5_detection_priority_and_passthrough.2.2.2.1) ["MOTOR/X"]
        (by decide) (by decide) (by decide))

theorem find?_map_replace {α : Type} (m : List (Key × α)) (k : Key) (v : α)
    (h : m.any (fun kv => kv.1 == k) = true) :
    (m.map (fun kv => if kv.1 == k then (k, v) else kv)).find?
        (fun kv => kv.1 == k) = some (k, v) := by
  induction m with
  | nil => simp at h
  | cons hd tl ih =>
    rw [List.map_cons]
    cases hh : (hd.1 == k) with
    | true =>
      simp [List.find?_cons_of_pos]
    | false =>
      rw [if_neg (by simp [hh]), List.find?_cons_of_neg _ (by simp [hh])]
      have h2 : tl.any (fun kv => kv.1 == k) = true := by
        rw [List.any_cons, hh, Bool.false_or] at h
        exact h
      exact ih h2

theorem find?_none_of_any_false {α : Type} (m : List (Key × α)) (k : Key)
    (h : m.any (fun kv => kv.1 == k) = false) :
    m.find? (fun kv => kv.1 == k) = none := by
  induction m with
  | nil => rfl
  | cons hd tl ih =>
    rw [List.any_cons, Bool.or_eq_false_iff] at h
    rw [List.find?_cons_of_neg _ (by simp [h.1])]
    exact ih h.2

theorem assocGet_assocSet_self {α : Type} (m : List (Key × α)) (k : Key) (v : α) :
    assocGet (assocSet m k v) k = some v := by
  unfold assocSet assocGet
  cases h : m.any (fun kv => kv.1 == k) with
  | true =>
    rw [if_pos (by rfl), find?_map_replace m k v h]
    rfl
  | false =>
    rw [if_neg (by simp), List.find?_append, find?_none_of_any_false m k h]
    rw [List.find?_cons_of_pos _ (by simp)]
    rfl

theorem assocGet_filter_ne {α : Type} (m : List (Key × α)) (ksrc k : Key)
    (hne : k ≠ ksrc) :
    assocGet (m.filter (fun kv => kv.1 != ksrc)) k = assocGet m k := by
  unfold assocGet
  induction m with
  | nil => rfl
  | cons hd tl ih =>
    cases h1 : (hd.1 == ksrc) with
    | true =>
      have he : hd.1 = ksrc := by simpa [beq_iff_eq] using h1
      have hdk : (hd.1 == k) = false := by
        rw [he]
        simp only [beq_eq_false_iff_ne, ne_eq]
        exact fun hc => hne hc.symm
      rw [List.filter_cons_of_neg (by simp [bne, h1])]
      simp only [List.find?_cons, hdk]
      exact ih
    | false =>
      rw [List.filter_cons_of_pos (by simp [bne, h1])]
      simp only [List.find?_cons]
      cases hk : (hd.1 == k) with
      | true => rfl
      | false => exact ih

theorem delSources_preserves (k : Key) (v : SourceRecord) :
    ∀ (srcs : List SourceName) (m m2 : List (SourceName × SourceRecord)),
      srcs.contains k = false →
      delSources m srcs = .ok m2 →
      assocGet m k = some v → assocGet m2 k = some v := by
  intro srcs
  induction srcs with
  | nil =>
    intro m m2 _ hfold hget
    cases hfold
    exact hget
  | cons src rest ih =>
    intro m m2 hc hfold hget
    rw [List.contains_cons, Bool.or_eq_false_iff] at hc
    have hkne : k ≠ src := by
      intro hkk
      rw [hkk] at hc
      simp at hc
    unfold delSources at hfold
    cases hdel : assocDel m src with
    | none =>
      rw [hdel] at hfold
      cases hfold
    | some m1 =>
      rw [hdel] at hfold
      have hm1 : m1 = m.filter (fun kv => kv.1 != src) := by
        unfold assocDel at hdel
        cases ha : m.any (fun kv => kv.1 == src) with
        | true =>
          rw [if_pos ha] at hdel
          exact ((Option.some.injEq _ _).mp hdel).symm
        | false =>
          rw [if_neg (by simp [ha])] at hdel
          cases hdel
      refine ih m1 m2 hc.2 hfold ?_
      rw [hm1, assocGet_filter_ne m src k hkne]
      exact hget

/-- C6, counterexample: which member module the synthetic record copies
its non-data keys from depends on the source map's insertion order.  The
same two modules (channels 0 and 1, disagreeing on the non-data key
`other`) are presented in the two insertion orders: with channel 0 first
the synthetic record carries `other = 10`, with channel 1 first it carries
`other = 11` — the reference module is the first entry in insertion order,
not a deterministically chosen (e.g. lowest-channel) member, so the two
results differ.  This refutes the claim that the copied non-data keys are
independent of the source map's insertion order. -/
theorem C6_counterexample_reference_module_depends_on_order :
    applyAppend mDet [(mch0, crec0), (mch1, crec1)]
        = .ok [("DET/DET/APPEND",
            ⟨[("image.data", .arr [2, 64, 64] [0, 1]), ("other", .scalar 10)],
             "DET/DET/APPEND", none⟩)]
      ∧ applyAppend mDet [(mch1, crec1), (mch0, crec0)]
        = .ok [("DET/DET/APPEND",
            ⟨[("image.data", .arr [2, 64, 64] [0, 1]), ("other", .scalar 11)],
             "DET/DET/APPEND", none⟩)]
      ∧ (applyAppend mDet [(mch0, crec0), (mch1, crec1)]
          == applyAppend mDet [(mch1, crec1), (mch0, crec0)]) = false := by
  refine ⟨by decide, by decide, by decide⟩

/-- C6, amended: the synthetic stacked record copies its non-data keys
from the first detector-source entry in the frame's source-map insertion
order (`next(iter(det_data.values()))`), with `image.data` overwritten by
the stacked array and `metadata.source` rewritten to the synthetic name. -/
theorem C6_amended_reference_is_first_inserted_module
    (det : Detector) (td : List (SourceName × SourceRecord))
    (sn : SourceName) (rec : SourceRecord)
    (rest : List (SourceName × SourceRecord)) (stacked : Value)
    (td2 : List (SourceName × SourceRecord))
    (hdd : td.filter (fun kv => det.data.detector_sources.contains kv.1)
      = (sn, rec) :: rest)
    (hst : stack_detector_data ((sn, rec) :: rest) "image.data" = .ok stacked)
    (hname : det.data.detector_sources.contains
      (det.detector_name ++ "/DET/APPEND") = false)
    (happ : applyAppend det td = .ok td2) :
    assocGet td2 (det.detector_name ++ "/DET/APPEND")
      = some { rec with
          data := assocSet rec.data "image.data" stacked
          metaSource := det.detector_name ++ "/DET/APPEND" } := by
  simp only [applyAppend, hdd, hst] at happ
  exact delSources_preserves (det.detector_name ++ "/DET/APPEND") _
    det.data.detector_sources _ td2 hname happ
    (assocGet_assocSet_self td _ _)

theorem C6_amended_reference_is_first_inserted_module_witness :
    assocGet [("DET/DET/APPEND",
        (⟨[("image.data", .arr [2, 64, 64] [0, 1]), ("other", .scalar 11)],
         "DET/DET/APPEND", none⟩ : SourceRecord))] ("DET" ++ "/DET/APPEND")
      = some { crec1 with
          data := assocSet crec1.data "image.data" (.arr [2, 64, 64] [0, 1])
          metaSource := "DET" ++ "/DET/APPEND" } :=
  C6_amended_reference_is_first_inserted_module mDet
    [(mch1, crec1), (mch0, crec0)] mch1 crec1 [(mch0, crec0)]
    (.arr [2, 64, 64] [0, 1]) _
    (by decide) (by decide) (by decide) (by decide)

/-- C7: startup failures abort the whole run before anything is streamed.
If the path does not exist, opening fails with `NotFoundError` (whether it
would be read as a file or as a run directory); if it exists but is neither
a recognizable single file nor a directory of recognizable files, opening
fails with `FormatError`.  In both cases `serve_files` ends with that
startup error, the streamer is never started, and no frame is fed. -/
theorem C7_startup_errors_abort_before_streaming
    (p : PathInfo) (frames : List Frame) (app : Bool)
    (ns : List SourceName) (intr : Option Nat) :
    (p.pexists = false →
      serve_files p frames app ns intr
        = ⟨some .notFoundError, false, [], false, false, none⟩)
    ∧ (p.pexists = true → p.isDir = true → p.validRunDir = false →
      serve_files p frames app ns intr
        = ⟨some .formatError, false, [], false, false, none⟩)
    ∧ (p.pexists = true → p.isDir = false → p.validH5 = false →
      serve_files p frames app ns intr
        = ⟨some .formatError, false, [], false, false, none⟩) := by
  refine ⟨?_, ?_, ?_⟩
  · intro h1
    simp [serve_files, openPath, osp_isdir, H5File, RunDirectory, h1]
  · intro h1 h2 h3
    simp [serve_files, openPath, osp_isdir, H5File, RunDirectory, h1, h2, h3]
  · intro h1 h2 h3
    simp [serve_files, openPath, osp_isdir, H5File, RunDirectory, h1, h2, h3]

theorem C7_startup_errors_abort_before_streaming_witness :
    serve_files missingPath run3 false [] none
      = ⟨some .notFoundError, false, [], false, false, none⟩ :=
  (C7_startup_errors_abort_before_streaming missingPath run3 false [] none).1
    (by decide)

/-- C8, counterexample: an external interrupt striking during the very
first `feed` of a one-frame run leaves `serve_files` without reaching
`streamer.stop()` — the call on line 113 sits after the loop with no
`try`/`finally`, so the interrupted execution path exits without invoking
`stop()`.  This refutes the claim that `stop()` is invoked on every path
out of the streaming loop, including interruption. -/
theorem C8_counterexample_interrupt_skips_stop :
    (serve_files goodPath [fr100] false [] (some 0)).interrupted = true
      ∧ (serve_files goodPath [fr100] false [] (some 0)).stopCalled = false := by
  decide

/-- C8, amended: once the streamer has started, `stop()` is invoked
exactly when the streaming loop completes normally — it is skipped
whenever an interrupt fires during a `feed` or a stacking exception
escapes the loop. -/
theorem C8_amended_stop_only_on_normal_completion
    (p : PathInfo) (frames : List Frame) (app : Bool)
    (ns : List SourceName) (intr : Option Nat)
    (hs : (serve_files p frames app ns intr).started = true) :
    (serve_files p frames app ns intr).stopCalled = true
      ↔ ((serve_files p frames app ns intr).interrupted = false
          ∧ (serve_files p frames app ns intr).pumpError = none) := by
  cases hop : openPath p with
  | error e => simp [serve_files, hop] at hs
  | ok u =>
    simp only [serve_files, hop]
    generalize (if app then detectDet ns else none) = det
    have main : ∀ (l : List Frame) (c : Nat),
        (serveLoop det intr l c).stopCalled = true
          ↔ ((serveLoop det intr l c).interrupted = false
              ∧ (serveLoop det intr l c).pumpError = none) := by
      intro l
      induction l with
      | nil => intro c; simp [serveLoop]
      | cons f rest ih =>
        intro c
        by_cases he : f.sources.isEmpty
        · simpa [serveLoop, he] using ih c
        · have he2 : f.sources.isEmpty = false := by simpa using he
          cases htr : transformFrame det f with
          | error e2 => simp [serveLoop, he2, htr]
          | ok f2 =>
            by_cases hint : intr = some c
            · simp [serveLoop, he2, htr, hint]
            · simpa [serveLoop, he2, htr, hint] using ih (c + 1)
    exact main frames 0

theorem C8_amended_stop_only_on_normal_completion_witness :
    (serve_files goodPath run3 false [] none).stopCalled = true
      ↔ ((serve_files goodPath run3 false [] none).interrupted = false
          ∧ (serve_files goodPath run3 false [] none).pumpError = none) :=
  C8_amended_stop_only_on_normal_completion goodPath run3 false [] none
    (by decide)

theorem feedMany_outcomes :
    ∀ (xs : List Frame) (q : QueueState),
      q.closed = false →
      q.buf.length ≤ q.maxlen →
      q.buf.length + xs.length = q.maxlen + 1 →
      (feedMany q xs).1
        = List.replicate (q.maxlen - q.buf.length) .queued ++ [.blocked] := by
  intro xs
  induction xs with
  | nil =>
    intro q _ hle hlen
    exfalso
    simp only [List.length_nil, Nat.add_zero] at hlen
    omega
  | cons x rest ih =>
    intro q hcl hle hlen
    simp only [List.length_cons] at hlen
    by_cases hfull : q.buf.length = q.maxlen
    · have hr : rest.length = 0 := by omega
      have hr2 : rest = [] := List.eq_nil_of_length_eq_zero hr
      subst hr2
      simp [feedMany, feed, hcl, hfull]
    · have hlt : q.buf.length < q.maxlen := by omega
      have step : feed q x = (.queued, { q with buf := q.buf ++ [x] }) := by
        simp [feed, hcl, hlt]
      have hrep : q.maxlen - q.buf.length
          = (q.maxlen - (q.buf.length + 1)) + 1 := by omega
      rw [hrep]
      simp only [feedMany, step, List.replicate_succ]
      rw [ih { q with buf := q.buf ++ [x] } hcl
        (by simp only [List.length_append, List.length_cons, List.length_nil]; omega)
        (by simp only [List.length_append, List.length_cons, List.length_nil]; omega)]
      simp

/-- C9: backpressure of the transport's bounded queue (capacity `K`; the
deprecated `ZMQStreamer` wrapper defaults `maxlen` to 10).  Against a
transport that never drains, a producer issuing `K + 1` `feed` calls on an
initially empty queue gets `K` normal returns and then blocks on the
`(K+1)`-th call; a `feed` against a full open queue always blocks, so
memory held in the queue never exceeds the capacity; a blocked `feed`
succeeds once the consumer frees a slot, and after `stop()` closes the
queue a `feed` returns without raising. -/
theorem C9_bounded_queue_backpressure
    (K : Nat) (xs : List Frame) (hlen : xs.length = K + 1) :
    ((feedMany ⟨[], K, false⟩ xs).1
        = List.replicate K .queued ++ [.blocked])
      ∧ (∀ (q : QueueState) (f : Frame),
          q.closed = false → q.buf.length = q.maxlen →
          (feed q f).1 = .blocked)
      ∧ (∀ (q : QueueState) (f : Frame),
          q.closed = false → q.buf.length = q.maxlen → 0 < q.maxlen →
          (feed (drainOne q) f).1 = .queued)
      ∧ (∀ (q : QueueState) (f : Frame),
          (feed (stopQueue q) f).1 = .returnedClosed) := by
  refine ⟨?_, ?_, ?_, ?_⟩
  · have h := feedMany_outcomes xs ⟨[], K, false⟩ rfl (by simp)
      (by simp [hlen])
    simpa using h
  · intro q f hcl hfull
    simp [feed, hcl, hfull]
  · intro q f hcl hfull hpos
    have h2 : q.buf.length - 1 < q.maxlen := by omega
    simp [feed, drainOne, hcl, h2]
  · intro q f
    simp [feed, stopQueue]

theorem C9_bounded_queue_backpressure_witness :
    (feedMany ⟨[], ZMQStreamer_default_maxlen, false⟩
        ((List.range 11).map (fun i => ⟨i, []⟩))).1
      = List.replicate ZMQStreamer_default_maxlen .queued ++ [.blocked] :=
  (C9_bounded_queue_backpressure ZMQStreamer_default_maxlen
    ((List.range 11).map (fun i => ⟨i, []⟩)) (by decide)).1

/-- C10: on every HDF5 group visit sequence, `hdf5_datasets` writes
exactly one header row `['path', 'shape', 'dtype']` followed by one CSV row
per dataset the visitor reaches (a permutation of the collected dataset
rows — groups contribute nothing), the rows sorted lexicographically with
the path first; and the output is invariant under the order in which the
visitor encounters the items. -/
theorem C10_hdf5_datasets_sorted_csv (visits : List H5Visit) :
    (hdf5_datasets visits).header = ["path", "shape", "dtype"]
      ∧ ((hdf5_datasets visits).rows).Perm (visitDatasets visits)
      ∧ List.Sorted rowLe (hdf5_datasets visits).rows
      ∧ (∀ visits2 : List H5Visit, visits.Perm visits2 →
          hdf5_datasets visits = hdf5_datasets visits2) := by
  refine ⟨rfl, ?_, ?_, ?_⟩
  · exact List.perm_insertionSort rowLe _
  · exact List.sorted_insertionSort rowLe _
  · intro v2 hp
    unfold hdf5_datasets
    have hperm : List.Perm ((visitDatasets visits).insertionSort rowLe)
        ((visitDatasets v2).insertionSort rowLe) := by
      refine ((List.perm_insertionSort rowLe _).trans ?_).trans
        (List.perm_insertionSort rowLe _).symm
      exact hp.filterMap _
    have heq := List.eq_of_perm_of_sorted hperm
      (List.sorted_insertionSort rowLe _) (List.sorted_insertionSort rowLe _)
    rw [heq]

theorem C10_hdf5_datasets_sorted_csv_witness :
    hdf5_datasets visitsA = hdf5_datasets visitsB :=
  (C10_hdf5_datasets_sorted_csv visitsA).2.2.2 visitsB (by decide)

end ExtraData



